import Mathlib

/-!
Shallow embedding of the iterative search workflow in
`src/search_core/workflows.py` (classes `SearchWorkflow` and
`AsyncSearchWorkflow`), together with the data model from
`src/search_core/types.py` and the JSON/truthiness conventions of
`src/search_core/utils.py` that the workflow code relies on.

External collaborators (the Groq completion client and the web searcher)
are modelled as oracles: the workflow only observes the value each call
produces (or the fact that it raised `GroqAPIError`), so a collaborator
behaviour is a function from call position to produced value.
-/

namespace SearchCore

/-! Section: Data model (src/search_core/types.py) -/

/-- Dataclass `EvaluationResult`: the LLM evaluation of an answer. -/
structure EvaluationResult where
  satisfactory : Bool
  reason : String
deriving Repr, DecidableEq

/-- Dataclass `WorkflowResult`: outcome of a complete search workflow run. -/
structure WorkflowResult where
  answer : String
  evaluation : EvaluationResult
  attempts : Nat
  answers_history : List String
deriving Repr, DecidableEq

/-! Section: Python value semantics

`safe_json_loads` (src/search_core/utils.py) returns an arbitrary JSON
value; the workflow then applies Python truthiness (`bool(...)`, `if x:`),
`str(...)` and `dict.get` to it.  `PyJson` models the values
`json.loads` can produce (floats are not needed by any claim and are
omitted).  -/

inductive PyJson where
  | null
  | bool (b : Bool)
  | int (n : Int)
  | str (s : String)
  | list (items : List PyJson)
  | dict (entries : List (String × PyJson))

/-- Python truthiness of a JSON-derived value: `None`, `False`, `0`, `""`,
`[]` and an empty dict are falsy, everything else is truthy. -/
def pyTruthy : PyJson → Bool
  | .null => false
  | .bool b => b
  | .int n => n != 0
  | .str s => s != ""
  | .list items => !items.isEmpty
  | .dict entries => !entries.isEmpty

mutual

/-- Python `str(...)` on a JSON-derived value.  At top level a string
renders as itself; containers render their elements with `repr`.  The
escaping Python applies inside `repr` of a string is immaterial to every
use in the workflow (only whether the stripped text is empty matters, and
container renderings always contain brackets). -/
def pyStr : PyJson → String
  | .null => "None"
  | .bool b => if b then "True" else "False"
  | .int n => toString n
  | .str s => s
  | .list items => "[" ++ pyStrJoin items ++ "]"
  | .dict entries => "\x7b" ++ pyStrJoinEntries entries ++ "\x7d"

/-- Python `repr(...)` as used for elements inside a container rendering. -/
def pyRepr : PyJson → String
  | .null => "None"
  | .bool b => if b then "True" else "False"
  | .int n => toString n
  | .str s => "\x27" ++ s ++ "\x27"
  | .list items => "[" ++ pyStrJoin items ++ "]"
  | .dict entries => "\x7b" ++ pyStrJoinEntries entries ++ "\x7d"

/-- Comma-separated rendering of list elements. -/
def pyStrJoin : List PyJson → String
  | [] => ""
  | [x] => pyRepr x
  | x :: xs => pyRepr x ++ ", " ++ pyStrJoin xs

/-- Comma-separated rendering of dict entries. -/
def pyStrJoinEntries : List (String × PyJson) → String
  | [] => ""
  | [(k, v)] => "\x27" ++ k ++ "\x27: " ++ pyRepr v
  | (k, v) :: rest => "\x27" ++ k ++ "\x27: " ++ pyRepr v ++ ", " ++ pyStrJoinEntries rest

end

/-- Python `str.strip()`: remove leading and trailing whitespace. -/
def pyStrip (s : String) : String :=
  String.mk (((s.data.dropWhile Char.isWhitespace).reverse.dropWhile
    Char.isWhitespace).reverse)

/-- Python `str.lower()`: lowercase every character. -/
def pyLower (s : String) : String :=
  String.mk (s.data.map Char.toLower)

/-- Python `dict.get(key)` on the dict produced by `json.loads`: with
duplicate keys the last occurrence wins, a missing key yields `None`
(modelled as `none`). -/
def pyDictGet (entries : List (String × PyJson)) (key : String) : Option PyJson :=
  List.lookup key entries.reverse

/-- Truthiness of an optional value (`bool(data.get(key))`). -/
def pyTruthyOpt : Option PyJson → Bool
  | none => false
  | some v => pyTruthy v

/-- Python `str(x or "")`: the string form of `x` when `x` is truthy,
otherwise the empty string. -/
def pyStrOrEmpty : Option PyJson → String
  | none => ""
  | some v => if pyTruthy v then pyStr v else ""

/-! Section: Completion-call outcomes

Every LLM interaction in the workflow is `chat_completion` followed by
`extract_choice_text` and (where JSON is expected) `safe_json_loads`.
`ParsedCompletion` records the distinct outcomes that pipeline can have,
exactly as the call sites in `workflows.py` distinguish them. -/

inductive ParsedCompletion where
  | apiError (msg : String)
  | noContent
  | invalidJson
  | payload (data : PyJson)

/-- Whether a parsed completion is a JSON dict payload. -/
def isDictPayload : ParsedCompletion → Bool
  | .payload (.dict _) => true
  | _ => false

/-! Section: SearchWorkflow.evaluate_answer (workflows.py lines 103-121)

The async variant (lines 256-274) is textually identical apart from the
`tolerant=True` flag, which only affects the prompt, not the result
handling; both are embedded by this one function. -/

/-- Result handling of `evaluate_answer`, as a function of the completion
call's outcome. -/
def evaluate_answer (outcome : ParsedCompletion) : EvaluationResult :=
  match outcome with
  | .apiError msg => ⟨false, "Unable to evaluate the answer: " ++ msg⟩
  | .noContent => ⟨false, "Unable to evaluate the answer"⟩
  | .invalidJson => ⟨false, "Unable to evaluate the answer"⟩
  | .payload data =>
    match data with
    | .dict entries =>
      ⟨pyTruthyOpt (pyDictGet entries "satisfactory"),
        pyStrOrEmpty (pyDictGet entries "reason")⟩
    | _ => ⟨false, "Unable to evaluate the answer"⟩

/-! Section: AsyncSearchWorkflow.classify_query and process_query routing
(workflows.py lines 289-299 and 394-422) -/

/-- Outcome of the classification completion call: either a raised
`GroqAPIError` or the extracted choice text (possibly `None`). -/
inductive ClassifyOutcome where
  | apiError
  | success (content : Option String)

/-- Embedding of `classify_query`: `"simple"` on error or falsy content, otherwise
`content.strip().lower()`. -/
def classify_query (o : ClassifyOutcome) : String :=
  match o with
  | .apiError => "simple"
  | .success none => "simple"
  | .success (some content) =>
    if content = "" then "simple" else pyLower (pyStrip content)

/-- The three dispatch targets of `process_query`. -/
inductive QueryRoute where
  | math
  | simple
  | search
deriving Repr, DecidableEq

/-- The dispatch performed by `process_query` on the classification:
`"math"` to the math handler, `"simple"` to the single direct completion
call (`handle_simple_query`), anything else to the full search workflow
(`handle_search_flow`). -/
def process_query_route (o : ClassifyOutcome) : QueryRoute :=
  let query_type := classify_query o
  if query_type = "math" then QueryRoute.math
  else if query_type = "simple" then QueryRoute.simple
  else QueryRoute.search

/-! Section: SearchWorkflow.generate_search_queries (workflows.py lines 42-81)

The async variant (lines 196-236) has identical result handling.  The
completion client is an oracle mapping the call index (0-based, one per
loop iteration) to that call's parsed outcome. -/

/-- Python truthiness of the `Optional[int]` argument `fixed_count`:
`None` and `0` are falsy. -/
def optIntTruthy : Option Int → Bool
  | none => false
  | some n => n != 0

/-- The comprehension
`[str(item).strip() for item in parsed if str(item).strip()]`. -/
def validQueries (items : List PyJson) : List String :=
  (items.map (fun item => pyStrip (pyStr item))).filter (fun s => s != "")

/-- The retry loop of `generate_search_queries`: `i` is the 0-based index
of the next completion call, `fuel` the number of loop iterations left.
Each iteration either returns a validated query list or falls through to
the next iteration; after the loop the original query is returned as a
single-element fallback. -/
def generate_go (oracle : Nat → ParsedCompletion) (query : String)
    (fixed_count : Option Int) : Nat → Nat → List String
  | _, 0 => [query]
  | i, fuel + 1 =>
    match oracle i with
    | .payload (.list items) =>
      if (validQueries items).isEmpty then
        generate_go oracle query fixed_count (i + 1) fuel
      else if optIntTruthy fixed_count
          && ((validQueries items).length : Int) != fixed_count.getD 0 then
        generate_go oracle query fixed_count (i + 1) fuel
      else if !optIntTruthy fixed_count && (validQueries items).length > 5 then
        (validQueries items).take 5
      else
        validQueries items
    | _ => generate_go oracle query fixed_count (i + 1) fuel

/-- Embedding of `generate_search_queries`: runs the retry loop for
`max(1, query_generation_attempts)` iterations. -/
def generate_search_queries (oracle : Nat → ParsedCompletion) (query : String)
    (fixed_count : Option Int) (query_generation_attempts : Int) : List String :=
  generate_go oracle query fixed_count 0 (max 1 query_generation_attempts).toNat

/-! Section: SearchWorkflow.answer_query (workflows.py lines 123-176)

The loop body calls, in order, `generate_search_queries` (never raises,
returns some query list), `fetch_search_results`, `synthesize_answer` and
`evaluate_answer` (never raises).  Generation and search only influence
the rest of the run through the synthesized answer, so a collaborator
behaviour is captured by two oracles indexed by the 1-based attempt
number: the answer `synthesize_answer` produces on that attempt (`none`
models a failed or empty completion) and the `EvaluationResult` that
`evaluate_answer` produces on that attempt.  A trace of the calls issued
is recorded alongside the result. -/

/-- One collaborator behaviour for a run of `answer_query`. -/
structure WorkflowOracle where
  synthResult : Nat → Option String
  evalResult : Nat → EvaluationResult

/-- Python truthiness of the synthesized answer (`if not answer:`):
`None` and the empty string are falsy. -/
def synthOk : Option String → Bool
  | none => false
  | some s => s != ""

/-- The calls `answer_query` issues, tagged with the 1-based attempt. -/
inductive CallEvent where
  | generate (attempt : Nat)
  | search (attempt : Nat)
  | synthesize (attempt : Nat)
  | evaluate (attempt : Nat)
deriving Repr, DecidableEq

/-- The attempt number an event belongs to. -/
def CallEvent.attemptOf : CallEvent → Nat
  | .generate a => a
  | .search a => a
  | .synthesize a => a
  | .evaluate a => a

/-- The fixed diagnostic reason set when synthesis produces no answer
(workflows.py lines 148-150). -/
def synthesisFailureReason : String :=
  "Unable to produce an answer from the gathered search results."

/-- The `for attempt in range(1, max_retries + 1)` loop of `answer_query`:
`attempt` is the 1-based attempt number, `fuel` the number of iterations
left, `answers_history` and `evaluation` the loop state.  A failed
synthesis breaks out of the loop, which then falls through to the
terminal return with `attempts = max_retries`; a satisfactory evaluation
returns immediately with `attempts = attempt`. -/
def answer_query_go (o : WorkflowOracle) (max_retries : Nat) :
    Nat → Nat → List String → EvaluationResult → WorkflowResult × List CallEvent
  | _, 0, answers_history, evaluation =>
    (⟨answers_history.getLastD "", evaluation, max_retries, answers_history⟩, [])
  | attempt, fuel + 1, answers_history, _evaluation =>
    let calls := [CallEvent.generate attempt, CallEvent.search attempt,
      CallEvent.synthesize attempt]
    match o.synthResult attempt with
    | none =>
      (⟨answers_history.getLastD "", ⟨false, synthesisFailureReason⟩,
        max_retries, answers_history⟩, calls)
    | some answer =>
      if answer = "" then
        (⟨answers_history.getLastD "", ⟨false, synthesisFailureReason⟩,
          max_retries, answers_history⟩, calls)
      else
        let hist := answers_history ++ [answer]
        let evaluation := o.evalResult attempt
        if evaluation.satisfactory then
          (⟨answer, evaluation, attempt, hist⟩,
            calls ++ [CallEvent.evaluate attempt])
        else
          let rest := answer_query_go o max_retries (attempt + 1) fuel hist evaluation
          (rest.1, calls ++ [CallEvent.evaluate attempt] ++ rest.2)

/-- Embedding of `answer_query`: the loop starting at attempt 1 with empty history and
`EvaluationResult(False, "")`, together with the trace of issued calls. -/
def answer_query (o : WorkflowOracle) (max_retries : Nat) :
    WorkflowResult × List CallEvent :=
  answer_query_go o max_retries 1 max_retries [] ⟨false, ""⟩

/-! Section: Helper lemmas -/

/-- A string with a nonempty left part of an append is nonempty. -/
theorem string_append_left_ne_empty (s t : String) (h : s ≠ "") : s ++ t ≠ "" := by
  intro hc
  apply h
  have hd := congrArg String.data hc
  rw [String.data_append] at hd
  exact String.ext (List.append_eq_nil.mp hd).1

/-! Section: Claims about evaluate_answer -/

/-- C8: for every completion-call outcome that is not a JSON dict payload
(a raised client error, missing content, invalid JSON, or a non-dict
payload), `evaluate_answer` returns `satisfactory = false` with a
non-empty diagnostic reason.  The embedding is a total function of a
single call outcome, so no exception escapes and no internal retry
occurs. -/
theorem C8_evaluate_answer_error_handling (o : ParsedCompletion)
    (h : isDictPayload o = false) :
    (evaluate_answer o).satisfactory = false ∧ (evaluate_answer o).reason ≠ "" := by
  cases o with
  | apiError msg =>
    exact ⟨rfl, string_append_left_ne_empty _ _ (by decide)⟩
  | noContent => exact ⟨rfl, by decide⟩
  | invalidJson => exact ⟨rfl, by decide⟩
  | payload data =>
    cases data with
    | null => exact ⟨rfl, by decide⟩
    | bool b =>
      exact ⟨rfl, (by decide : ("Unable to evaluate the answer" : String) ≠ "")⟩
    | int n =>
      exact ⟨rfl, (by decide : ("Unable to evaluate the answer" : String) ≠ "")⟩
    | str s =>
      exact ⟨rfl, (by decide : ("Unable to evaluate the answer" : String) ≠ "")⟩
    | list items =>
      exact ⟨rfl, (by decide : ("Unable to evaluate the answer" : String) ≠ "")⟩
    | dict entries => simp [isDictPayload] at h

/-- Witness for C8 at the invalid-JSON outcome. -/
theorem C8_evaluate_answer_error_handling_witness :
    (evaluate_answer ParsedCompletion.invalidJson).satisfactory = false ∧
      (evaluate_answer ParsedCompletion.invalidJson).reason ≠ "" :=
  C8_evaluate_answer_error_handling ParsedCompletion.invalidJson rfl

/-- C9: on a JSON dict payload, `evaluate_answer` takes `satisfactory`
from the Python truthiness of the payload's `"satisfactory"` value (a
missing field yields `false`; any non-empty string — the string
`"false"` included — yields `true`) and takes `reason` from
`str(data.get("reason") or "")` (the string form of the value, or `""`
when the value is missing or falsy). -/
theorem C9_evaluate_answer_dict_semantics :
    (∀ entries, evaluate_answer (.payload (.dict entries)) =
      ⟨pyTruthyOpt (pyDictGet entries "satisfactory"),
        pyStrOrEmpty (pyDictGet entries "reason")⟩) ∧
    (evaluate_answer (.payload (.dict [("reason", .str "r")]))).satisfactory
      = false ∧
    (evaluate_answer (.payload (.dict [("satisfactory", .str "false")]))).satisfactory
      = true ∧
    (evaluate_answer (.payload (.dict [("satisfactory", .bool true)]))).reason
      = "" ∧
    (evaluate_answer (.payload
      (.dict [("satisfactory", .bool true), ("reason", .str "")]))).reason = "" ∧
    (evaluate_answer (.payload
      (.dict [("satisfactory", .int 1), ("reason", .str "because")]))).reason
      = "because" :=
  ⟨fun _ => rfl, by decide, by decide, by decide, by decide, by decide⟩

/-! Section: Claim about process_query routing -/

/-- C10: `process_query` routes to the full search workflow for every
classification whose stripped, lowercased text is neither `"math"` nor
`"simple"` (including `"realtime"` and unrecognized text), while a
completion-client failure or falsy classifier content defaults the
classification to `"simple"`, which routes to the single direct
completion call. -/
theorem C10_process_query_routing :
    (∀ content, pyLower (pyStrip content) ≠ "math" →
      pyLower (pyStrip content) ≠ "simple" → content ≠ "" →
      process_query_route (.success (some content)) = QueryRoute.search) ∧
    process_query_route (.success (some "realtime")) = QueryRoute.search ∧
    process_query_route (.success (some " Not A Known Category ")) =
      QueryRoute.search ∧
    process_query_route ClassifyOutcome.apiError = QueryRoute.simple ∧
    process_query_route (.success none) = QueryRoute.simple ∧
    process_query_route (.success (some "")) = QueryRoute.simple := by
  refine ⟨?_, by decide, by decide, rfl, rfl, by decide⟩
  intro content h1 h2 h3
  simp only [process_query_route, classify_query, if_neg h3, if_neg h1, if_neg h2]

/-- Witness for C10 at an unrecognized classification text. -/
theorem C10_process_query_routing_witness :
    process_query_route (.success (some "weather tomorrow")) = QueryRoute.search :=
  C10_process_query_routing.1 "weather tomorrow" (by decide) (by decide) (by decide)

/-! Section: Claims about generate_search_queries -/

/-- Under a truthy `fixed_count = n`, every return of the generation loop
has exactly `n` entries or is the fallback `[query]`. -/
theorem generate_go_fixed_count (oracle : Nat → ParsedCompletion) (query : String)
    (n : Int) (hn : n ≠ 0) :
    ∀ fuel i, ((generate_go oracle query (some n) i fuel).length : Int) = n ∨
      generate_go oracle query (some n) i fuel = [query] := by
  intro fuel
  induction fuel with
  | zero => intro i; right; rfl
  | succ fuel ih =>
    intro i
    have htr : optIntTruthy (some n) = true := by
      simp [optIntTruthy, hn]
    cases h : oracle i with
    | payload data =>
      cases data with
      | list items =>
        simp only [generate_go, h, htr, Bool.true_and, Bool.not_true,
          Bool.false_and, Option.getD_some]
        by_cases hqe : (validQueries items).isEmpty
        · simp only [hqe, if_true]
          exact ih (i + 1)
        · simp only [hqe, Bool.false_eq_true, if_false]
          by_cases hlen : (((validQueries items).length : Int) != n) = true
          · simp only [hlen, if_true]
            exact ih (i + 1)
          · simp only [hlen, Bool.false_eq_true, if_false]
            left
            simpa [bne] using hlen
      | null => simpa only [generate_go, h] using ih (i + 1)
      | bool b => simpa only [generate_go, h] using ih (i + 1)
      | int m => simpa only [generate_go, h] using ih (i + 1)
      | str s => simpa only [generate_go, h] using ih (i + 1)
      | dict entries => simpa only [generate_go, h] using ih (i + 1)
    | apiError msg => simpa only [generate_go, h] using ih (i + 1)
    | noContent => simpa only [generate_go, h] using ih (i + 1)
    | invalidJson => simpa only [generate_go, h] using ih (i + 1)

/-- C4 (amended: nonzero requested count): for every nonzero `n` passed
as `fixed_count`, `generate_search_queries` returns either exactly `n`
queries or, after exhausting its retry budget, the single-element list
containing the original query — never a list of any other size.  (A zero
count is falsy in Python and is treated as if no fixed count were
requested; see the counterexample.) -/
theorem C4_fixed_count_amended (oracle : Nat → ParsedCompletion) (query : String)
    (n : Int) (query_generation_attempts : Int) (hn : n ≠ 0) :
    ((generate_search_queries oracle query (some n)
        query_generation_attempts).length : Int) = n ∨
      generate_search_queries oracle query (some n)
        query_generation_attempts = [query] :=
  generate_go_fixed_count oracle query n hn _ 0

/-- Witness for C4 at `n = 3` with a model response of three queries. -/
theorem C4_fixed_count_witness :
    ((generate_search_queries
        (fun _ => .payload (.list [.str "a", .str "b", .str "c"]))
        "q" (some 3) 2).length : Int) = 3 ∨
      generate_search_queries
        (fun _ => .payload (.list [.str "a", .str "b", .str "c"]))
        "q" (some 3) 2 = ["q"] :=
  C4_fixed_count_amended _ "q" 3 2 (by decide)

/-- Counterexample to C4 as stated: with `fixed_count = 0` (a value
Python treats as falsy), a model response parsing to `["a", "b"]` is
returned as two queries — neither exactly `N = 0` queries nor the
single-element original-query fallback. -/
theorem C4_counterexample :
    ¬(((generate_search_queries
          (fun _ => .payload (.list [.str "a", .str "b"]))
          "q" (some 0) 1).length : Int) = 0 ∨
        generate_search_queries
          (fun _ => .payload (.list [.str "a", .str "b"]))
          "q" (some 0) 1 = ["q"]) := by decide

/-- Without `fixed_count`, every return of the generation loop is the
fallback `[query]` or has between 1 and 5 entries. -/
theorem generate_go_no_fixed_bounds (oracle : Nat → ParsedCompletion)
    (query : String) :
    ∀ fuel i, generate_go oracle query none i fuel = [query] ∨
      (1 ≤ (generate_go oracle query none i fuel).length ∧
        (generate_go oracle query none i fuel).length ≤ 5) := by
  intro fuel
  induction fuel with
  | zero => intro i; left; rfl
  | succ fuel ih =>
    intro i
    cases h : oracle i with
    | payload data =>
      cases data with
      | list items =>
        simp only [generate_go, h, optIntTruthy, Bool.false_and,
          Bool.false_eq_true, if_false, Bool.not_false, Bool.true_and,
          decide_eq_true_eq]
        by_cases hqe : (validQueries items).isEmpty
        · simp only [hqe, if_true]
          exact ih (i + 1)
        · simp only [hqe, Bool.false_eq_true, if_false]
          have hne : (validQueries items).length ≠ 0 := by
            intro hc
            rw [List.isEmpty_iff, ← List.length_eq_zero] at hqe
            exact hqe hc
          by_cases hlen : (validQueries items).length > 5
          · rw [if_pos hlen]
            right
            have hmin : ((validQueries items).take 5).length = 5 := by
              rw [List.length_take]
              omega
            rw [hmin]
            exact ⟨by omega, by omega⟩
          · rw [if_neg hlen]
            right
            omega
      | null => simpa only [generate_go, h] using ih (i + 1)
      | bool b => simpa only [generate_go, h] using ih (i + 1)
      | int m => simpa only [generate_go, h] using ih (i + 1)
      | str s => simpa only [generate_go, h] using ih (i + 1)
      | dict entries => simpa only [generate_go, h] using ih (i + 1)
    | apiError msg => simpa only [generate_go, h] using ih (i + 1)
    | noContent => simpa only [generate_go, h] using ih (i + 1)
    | invalidJson => simpa only [generate_go, h] using ih (i + 1)

/-- C7 (amended): without `fixed_count`, a parsed list is rejected (and
another generation attempt made) only when it yields no nonempty query
strings; an accepted list is truncated to at most 5 queries.  Hence every
return of `generate_search_queries` without `fixed_count` is the fallback
`[query]` or has between 1 and 5 queries — a single-element accepted list
is allowed.  The second conjunct shows the truncation of a six-element
response to five. -/
theorem C7_generation_bounds_amended :
    (∀ oracle query query_generation_attempts,
      generate_search_queries oracle query none query_generation_attempts
          = [query] ∨
        (1 ≤ (generate_search_queries oracle query none
            query_generation_attempts).length ∧
          (generate_search_queries oracle query none
            query_generation_attempts).length ≤ 5)) ∧
    generate_search_queries
        (fun _ => .payload (.list [.str "a", .str "b", .str "c", .str "d",
          .str "e", .str "f"]))
        "q" none 3 = ["a", "b", "c", "d", "e"] :=
  ⟨fun oracle query qga => generate_go_no_fixed_bounds oracle query _ 0, by decide⟩

/-- Counterexample to C7 as stated: without `fixed_count`, a model
response parsing to the one-element list `["a"]` is accepted and returned
as-is — it is not the original-query fallback `["q"]` and does not have
at least 2 queries, so a parsed list of length 1 is not treated as a
parse failure. -/
theorem C7_counterexample :
    generate_search_queries (fun _ => .payload (.list [.str "a"])) "q" none 3
        = ["a"] ∧
      (["a"] : List String) ≠ ["q"] ∧ (["a"] : List String).length < 2 := by
  decide

/-! Section: Claims about answer_query -/

/-- Step equation: an exhausted loop returns the terminal fallback. -/
theorem answer_query_go_zero (o : WorkflowOracle) (m attempt : Nat)
    (history : List String) (evaluation : EvaluationResult) :
    answer_query_go o m attempt 0 history evaluation =
      (⟨history.getLastD "", evaluation, m, history⟩, []) := rfl

/-- Step equation: a falsy synthesized answer breaks out of the loop into
the terminal fallback with the fixed diagnostic evaluation. -/
theorem answer_query_go_fail (o : WorkflowOracle) (m attempt fuel : Nat)
    (history : List String) (evaluation : EvaluationResult)
    (hs : synthOk (o.synthResult attempt) = false) :
    answer_query_go o m attempt (fuel + 1) history evaluation =
      (⟨history.getLastD "", ⟨false, synthesisFailureReason⟩, m, history⟩,
        [CallEvent.generate attempt, CallEvent.search attempt,
          CallEvent.synthesize attempt]) := by
  cases h : o.synthResult attempt with
  | none => simp only [answer_query_go, h]
  | some a =>
    rw [h] at hs
    have ha : a = "" := by simpa [synthOk] using hs
    subst ha
    simp only [answer_query_go, h]
    rw [if_pos trivial]

/-- Step equation: a truthy answer judged satisfactory returns
immediately. -/
theorem answer_query_go_sat (o : WorkflowOracle) (m attempt fuel : Nat)
    (history : List String) (evaluation : EvaluationResult) (a : String)
    (hs : o.synthResult attempt = some a) (ha : a ≠ "")
    (he : (o.evalResult attempt).satisfactory = true) :
    answer_query_go o m attempt (fuel + 1) history evaluation =
      (⟨a, o.evalResult attempt, attempt, history ++ [a]⟩,
        [CallEvent.generate attempt, CallEvent.search attempt,
          CallEvent.synthesize attempt, CallEvent.evaluate attempt]) := by
  simp only [answer_query_go, hs]
  rw [if_neg ha, if_pos he]
  rfl

/-- Step equation: a truthy answer judged unsatisfactory records the
answer and recurses into the next attempt. -/
theorem answer_query_go_unsat (o : WorkflowOracle) (m attempt fuel : Nat)
    (history : List String) (evaluation : EvaluationResult) (a : String)
    (hs : o.synthResult attempt = some a) (ha : a ≠ "")
    (he : (o.evalResult attempt).satisfactory = false) :
    answer_query_go o m attempt (fuel + 1) history evaluation =
      ((answer_query_go o m (attempt + 1) fuel (history ++ [a])
          (o.evalResult attempt)).1,
        [CallEvent.generate attempt, CallEvent.search attempt,
          CallEvent.synthesize attempt, CallEvent.evaluate attempt] ++
          (answer_query_go o m (attempt + 1) fuel (history ++ [a])
            (o.evalResult attempt)).2) := by
  simp only [answer_query_go, hs]
  rw [if_neg ha, if_neg (by simp [he])]
  rfl

/-- Each iteration of the attempt loop keeps the returned `attempts`
within the budget. -/
theorem answer_query_go_attempts_le (o : WorkflowOracle) (m : Nat) :
    ∀ fuel attempt history evaluation, attempt + fuel = m + 1 →
      (answer_query_go o m attempt fuel history evaluation).1.attempts ≤ m := by
  intro fuel
  induction fuel with
  | zero =>
    intro attempt history evaluation _
    rw [answer_query_go_zero]
  | succ fuel ih =>
    intro attempt history evaluation h
    cases hs : synthOk (o.synthResult attempt) with
    | false =>
      rw [answer_query_go_fail o m attempt fuel history evaluation hs]
    | true =>
      obtain ⟨a, hsa, ha⟩ : ∃ a, o.synthResult attempt = some a ∧ a ≠ "" := by
        cases h' : o.synthResult attempt with
        | none => rw [h'] at hs; cases hs
        | some a =>
          rw [h'] at hs
          exact ⟨a, rfl, by simpa [synthOk] using hs⟩
      by_cases he : (o.evalResult attempt).satisfactory = true
      · rw [answer_query_go_sat o m attempt fuel history evaluation a hsa ha he]
        show attempt ≤ m
        omega
      · rw [answer_query_go_unsat o m attempt fuel history evaluation a hsa ha
          (by simpa using he)]
        exact ih (attempt + 1) (history ++ [a]) (o.evalResult attempt) (by omega)

/-- C1: for every collaborator behaviour and budget, the `attempts` field
of the `WorkflowResult` returned by `answer_query` never exceeds the
configured `max_retries`. -/
theorem C1_bounded_attempts (o : WorkflowOracle) (max_retries : Nat) :
    (answer_query o max_retries).1.attempts ≤ max_retries :=
  answer_query_go_attempts_le o max_retries max_retries 1 [] ⟨false, ""⟩ (by omega)

/-- Running the loop towards the first satisfactory attempt `k`: the run
returns at attempt `k` with attempt `k`'s answer, and every call issued
belongs to an attempt `≤ k`. -/
theorem answer_query_go_first_sat (o : WorkflowOracle) (m k : Nat) (a : String)
    (hk : k ≤ m) (hsk : o.synthResult k = some a) (ha : a ≠ "")
    (hek : (o.evalResult k).satisfactory = true) :
    ∀ fuel attempt history evaluation, attempt + fuel = m + 1 → attempt ≤ k →
      (∀ j, attempt ≤ j → j < k →
        synthOk (o.synthResult j) = true ∧ (o.evalResult j).satisfactory = false) →
      (answer_query_go o m attempt fuel history evaluation).1.attempts = k ∧
      (answer_query_go o m attempt fuel history evaluation).1.answer = a ∧
      ∀ e ∈ (answer_query_go o m attempt fuel history evaluation).2,
        e.attemptOf ≤ k := by
  intro fuel
  induction fuel with
  | zero =>
    intro attempt history evaluation h hak _
    exfalso
    omega
  | succ fuel ih =>
    intro attempt history evaluation h hak hprev
    rcases Nat.lt_or_ge attempt k with hlt | hge
    · obtain ⟨hsyn, huns⟩ := hprev attempt (Nat.le_refl attempt) hlt
      obtain ⟨s, hs, hne⟩ : ∃ s, o.synthResult attempt = some s ∧ s ≠ "" := by
        cases h' : o.synthResult attempt with
        | none => rw [h'] at hsyn; cases hsyn
        | some s =>
          rw [h'] at hsyn
          exact ⟨s, rfl, by simpa [synthOk] using hsyn⟩
      rw [answer_query_go_unsat o m attempt fuel history evaluation s hs hne huns]
      obtain ⟨h1, h2, h3⟩ := ih (attempt + 1) (history ++ [s]) (o.evalResult attempt)
        (by omega) (by omega) (fun j hj1 hj2 => hprev j (by omega) hj2)
      refine ⟨h1, h2, ?_⟩
      intro e he
      simp only [List.cons_append, List.nil_append, List.mem_cons,
        List.mem_append] at he
      rcases he with rfl | rfl | rfl | rfl | he
      · exact Nat.le_of_lt hlt
      · exact Nat.le_of_lt hlt
      · exact Nat.le_of_lt hlt
      · exact Nat.le_of_lt hlt
      · exact h3 e he
    · have hek' : attempt = k := by omega
      subst hek'
      rw [answer_query_go_sat o m attempt fuel history evaluation a hsk ha hek]
      refine ⟨rfl, rfl, ?_⟩
      intro e he
      simp only [List.mem_cons, List.not_mem_nil, or_false] at he
      rcases he with rfl | rfl | rfl | rfl
      all_goals exact Nat.le_refl attempt

/-- C2: if attempt `k` is the first attempt whose evaluation is
satisfactory (all earlier attempts synthesized an answer that was judged
unsatisfactory, and attempt `k` synthesized answer `a`), then
`answer_query` returns immediately with `attempts = k` and `answer = a`,
and no generation, search, or synthesis call is issued for attempt
`k + 1`. -/
theorem C2_early_termination (o : WorkflowOracle) (max_retries k : Nat) (a : String)
    (hk1 : 1 ≤ k) (hk : k ≤ max_retries)
    (hprev : ∀ j, 1 ≤ j → j < k →
      synthOk (o.synthResult j) = true ∧ (o.evalResult j).satisfactory = false)
    (hsk : o.synthResult k = some a) (ha : a ≠ "")
    (hek : (o.evalResult k).satisfactory = true) :
    (answer_query o max_retries).1.attempts = k ∧
    (answer_query o max_retries).1.answer = a ∧
    CallEvent.generate (k + 1) ∉ (answer_query o max_retries).2 ∧
    CallEvent.search (k + 1) ∉ (answer_query o max_retries).2 ∧
    CallEvent.synthesize (k + 1) ∉ (answer_query o max_retries).2 := by
  obtain ⟨h1, h2, h3⟩ := answer_query_go_first_sat o max_retries k a hk hsk ha hek
    max_retries 1 [] ⟨false, ""⟩ (by omega) hk1 hprev
  refine ⟨h1, h2, ?_, ?_, ?_⟩ <;> intro hmem <;>
    simpa [CallEvent.attemptOf] using h3 _ hmem

/-- Witness for C2: a behaviour satisfied on the first attempt, with a
budget of 2 — the run stops at attempt 1 and never issues attempt-2
calls. -/
theorem C2_early_termination_witness :
    (answer_query ⟨fun _ => some "ans", fun _ => ⟨true, "ok"⟩⟩ 2).1.attempts = 1 ∧
    (answer_query ⟨fun _ => some "ans", fun _ => ⟨true, "ok"⟩⟩ 2).1.answer = "ans" ∧
    CallEvent.generate 2 ∉ (answer_query ⟨fun _ => some "ans",
      fun _ => ⟨true, "ok"⟩⟩ 2).2 ∧
    CallEvent.search 2 ∉ (answer_query ⟨fun _ => some "ans",
      fun _ => ⟨true, "ok"⟩⟩ 2).2 ∧
    CallEvent.synthesize 2 ∉ (answer_query ⟨fun _ => some "ans",
      fun _ => ⟨true, "ok"⟩⟩ 2).2 :=
  C2_early_termination ⟨fun _ => some "ans", fun _ => ⟨true, "ok"⟩⟩ 2 1 "ans"
    (Nat.le_refl 1) (by omega)
    (fun j hj1 hj2 => absurd hj2 (Nat.not_lt.mpr hj1))
    rfl (by decide) rfl

/-- Whether a call event is a `synthesize` call whose synthesis produced
a truthy answer under behaviour `o`. -/
def successfulSynthesis (o : WorkflowOracle) : CallEvent → Bool
  | .synthesize j => synthOk (o.synthResult j)
  | _ => false

/-- Running the loop from attempt `attempt` appends to the history
exactly the answers of the next `n` attempts for some `n`, all of which
synthesized successfully, where `n` equals the number of issued
`synthesize` calls whose synthesis succeeded; and the final history is no
longer than the final attempt count. -/
theorem answer_query_go_history (o : WorkflowOracle) (m : Nat) :
    ∀ fuel attempt history evaluation, attempt + fuel = m + 1 →
      history.length < attempt →
      ∃ n,
        (answer_query_go o m attempt fuel history evaluation).1.answers_history =
          history ++ (List.range' attempt n).map
            (fun j => (o.synthResult j).getD "") ∧
        (∀ j, attempt ≤ j → j < attempt + n →
          synthOk (o.synthResult j) = true) ∧
        ((answer_query_go o m attempt fuel history evaluation).2.filter
          (successfulSynthesis o)).length = n ∧
        (answer_query_go o m attempt fuel history
            evaluation).1.answers_history.length ≤
          (answer_query_go o m attempt fuel history evaluation).1.attempts := by
  intro fuel
  induction fuel with
  | zero =>
    intro attempt history evaluation h hlen
    rw [answer_query_go_zero]
    refine ⟨0, by simp, fun j hj1 hj2 => ?_, rfl, ?_⟩
    · omega
    · show history.length ≤ m
      omega
  | succ fuel ih =>
    intro attempt history evaluation h hlen
    cases hs : synthOk (o.synthResult attempt) with
    | false =>
      rw [answer_query_go_fail o m attempt fuel history evaluation hs]
      refine ⟨0, by simp, fun j hj1 hj2 => ?_, ?_, ?_⟩
      · omega
      · simp [successfulSynthesis, hs]
      · show history.length ≤ m
        omega
    | true =>
      obtain ⟨a, hsa, ha⟩ : ∃ a, o.synthResult attempt = some a ∧ a ≠ "" := by
        cases h' : o.synthResult attempt with
        | none => rw [h'] at hs; cases hs
        | some a =>
          rw [h'] at hs
          exact ⟨a, rfl, by simpa [synthOk] using hs⟩
      by_cases he : (o.evalResult attempt).satisfactory = true
      · rw [answer_query_go_sat o m attempt fuel history evaluation a hsa ha he]
        refine ⟨1, ?_, fun j hj1 hj2 => ?_, ?_, ?_⟩
        · simp [List.range'_one, hsa]
        · have hj : j = attempt := by omega
          rw [hj]
          exact hs
        · simp [successfulSynthesis, hs]
        · show (history ++ [a]).length ≤ attempt
          simp only [List.length_append, List.length_singleton]
          omega
      · rw [answer_query_go_unsat o m attempt fuel history evaluation a hsa ha
          (by simpa using he)]
        obtain ⟨n, h1, h2, h3, h4⟩ := ih (attempt + 1) (history ++ [a])
          (o.evalResult attempt) (by omega) (by simp; omega)
        refine ⟨n + 1, ?_, fun j hj1 hj2 => ?_, ?_, h4⟩
        · rw [h1, List.range'_succ, List.map_cons, List.append_assoc]
          simp [hsa]
        · rcases Nat.eq_or_lt_of_le hj1 with hj | hj
          · rw [← hj]
            exact hs
          · exact h2 j hj (by omega)
        · rw [List.filter_append, List.length_append, h3]
          simp [successfulSynthesis, hs]
          omega

/-- C5: `answers_history` of an `answer_query` run has length at most
`attempts`; it consists, in attempt order, of exactly the answers of
attempts `1..n` (each of which synthesized a truthy answer), where `n` is
the number of issued `synthesize` calls whose synthesis succeeded — so
the `i`-th element is exactly the answer synthesized in the `i`-th
successful attempt. -/
theorem C5_history_monotonicity (o : WorkflowOracle) (max_retries : Nat) :
    (answer_query o max_retries).1.answers_history.length ≤
      (answer_query o max_retries).1.attempts ∧
    ∃ n,
      (answer_query o max_retries).1.answers_history =
        (List.range' 1 n).map (fun j => (o.synthResult j).getD "") ∧
      (∀ j, 1 ≤ j → j ≤ n → synthOk (o.synthResult j) = true) ∧
      ((answer_query o max_retries).2.filter (successfulSynthesis o)).length
        = n := by
  obtain ⟨n, h1, h2, h3, h4⟩ := answer_query_go_history o max_retries max_retries
    1 [] ⟨false, ""⟩ (by omega) (by simp)
  exact ⟨h4, n, by simpa using h1, fun j hj1 hj2 => h2 j hj1 (by omega), h3⟩

/-- Running the loop when no remaining attempt evaluates satisfactorily:
the run falls through to the terminal fallback with `attempts = m` and
the last produced answer (or `""`); when additionally every remaining
synthesis succeeds, the history grows by exactly `fuel` answers and the
final evaluation is the last attempt's evaluation. -/
theorem answer_query_go_all_unsat (o : WorkflowOracle) (m : Nat)
    (huns : ∀ j, 1 ≤ j → j ≤ m → (o.evalResult j).satisfactory = false) :
    ∀ fuel attempt history evaluation, attempt + fuel = m + 1 → 1 ≤ attempt →
      (answer_query_go o m attempt fuel history evaluation).1.attempts = m ∧
      (answer_query_go o m attempt fuel history evaluation).1.answer =
        (answer_query_go o m attempt fuel history
          evaluation).1.answers_history.getLastD "" ∧
      ((∀ j, attempt ≤ j → j ≤ m → synthOk (o.synthResult j) = true) →
        (answer_query_go o m attempt fuel history
            evaluation).1.answers_history.length = history.length + fuel ∧
        (fuel = 0 →
          (answer_query_go o m attempt fuel history evaluation).1.evaluation =
            evaluation) ∧
        (1 ≤ fuel →
          (answer_query_go o m attempt fuel history evaluation).1.evaluation =
            o.evalResult m)) := by
  intro fuel
  induction fuel with
  | zero =>
    intro attempt history evaluation h h1
    rw [answer_query_go_zero]
    exact ⟨rfl, rfl, fun _ => ⟨rfl, fun _ => rfl, fun hc => absurd hc (by omega)⟩⟩
  | succ fuel ih =>
    intro attempt history evaluation h h1
    have ham : attempt ≤ m := by omega
    have huna : (o.evalResult attempt).satisfactory = false := huns attempt h1 ham
    cases hs : synthOk (o.synthResult attempt) with
    | false =>
      rw [answer_query_go_fail o m attempt fuel history evaluation hs]
      refine ⟨rfl, rfl, fun hall => ?_⟩
      exact absurd (hall attempt (Nat.le_refl attempt) ham) (by simp [hs])
    | true =>
      obtain ⟨a, hsa, ha⟩ : ∃ a, o.synthResult attempt = some a ∧ a ≠ "" := by
        cases h' : o.synthResult attempt with
        | none => rw [h'] at hs; cases hs
        | some a =>
          rw [h'] at hs
          exact ⟨a, rfl, by simpa [synthOk] using hs⟩
      rw [answer_query_go_unsat o m attempt fuel history evaluation a hsa ha huna]
      obtain ⟨g1, g2, g3⟩ := ih (attempt + 1) (history ++ [a])
        (o.evalResult attempt) (by omega) (by omega)
      refine ⟨g1, g2, fun hall => ?_⟩
      obtain ⟨k1, k2, k3⟩ := g3 (fun j hj1 hj2 => hall j (by omega) hj2)
      refine ⟨?_, fun hc => absurd hc (Nat.succ_ne_zero fuel), fun _ => ?_⟩
      · rw [k1]
        simp only [List.length_append, List.length_singleton]
        omega
      · rcases Nat.eq_zero_or_pos fuel with hf | hf
        · have hm : attempt = m := by omega
          rw [k2 hf, hm]
        · exact k3 hf

/-- C6: when no attempt in the budget evaluates satisfactorily,
`answer_query` returns `attempts` equal to the budget and `answer` equal
to the last element of `answers_history` (or `""` if the history is
empty); when additionally every attempt's synthesis succeeded, the
history covers the full budget and the returned evaluation is the last
attempt's. -/
theorem C6_budget_exhausted (o : WorkflowOracle) (max_retries : Nat)
    (hm : 1 ≤ max_retries)
    (huns : ∀ j, 1 ≤ j → j ≤ max_retries →
      (o.evalResult j).satisfactory = false) :
    (answer_query o max_retries).1.attempts = max_retries ∧
    (answer_query o max_retries).1.answer =
      (answer_query o max_retries).1.answers_history.getLastD "" ∧
    ((∀ j, 1 ≤ j → j ≤ max_retries → synthOk (o.synthResult j) = true) →
      (answer_query o max_retries).1.answers_history.length = max_retries ∧
      (answer_query o max_retries).1.evaluation =
        o.evalResult max_retries) := by
  obtain ⟨h1, h2, h3⟩ := answer_query_go_all_unsat o max_retries huns max_retries
    1 [] ⟨false, ""⟩ (by omega) (Nat.le_refl 1)
  refine ⟨h1, h2, fun hall => ?_⟩
  obtain ⟨k1, _, k3⟩ := h3 hall
  exact ⟨by simpa using k1, k3 hm⟩

/-- Witness for C6: a behaviour whose evaluation is always
unsatisfactory over a budget of 3 — the result reports 3 attempts, the
full 3-element history, the last answer and the last evaluation. -/
theorem C6_budget_exhausted_witness :
    (answer_query ⟨fun _ => some "a", fun _ => ⟨false, "bad"⟩⟩ 3).1.attempts = 3 ∧
    (answer_query ⟨fun _ => some "a", fun _ => ⟨false, "bad"⟩⟩ 3).1.answer =
      (answer_query ⟨fun _ => some "a",
        fun _ => ⟨false, "bad"⟩⟩ 3).1.answers_history.getLastD "" ∧
    (answer_query ⟨fun _ => some "a",
      fun _ => ⟨false, "bad"⟩⟩ 3).1.answers_history.length = 3 ∧
    (answer_query ⟨fun _ => some "a", fun _ => ⟨false, "bad"⟩⟩ 3).1.evaluation =
      ⟨false, "bad"⟩ := by
  obtain ⟨h1, h2, h3⟩ := C6_budget_exhausted
    ⟨fun _ => some "a", fun _ => ⟨false, "bad"⟩⟩ 3 (by omega)
    (fun j hj1 hj2 => rfl)
  obtain ⟨h4, h5⟩ := h3 (fun j hj1 hj2 => rfl)
  exact ⟨h1, h2, h4, h5⟩

/-- Counterexample to C3 as stated: with a budget of 2 and a synthesis
that produces no answer on attempt 1, the code breaks out of the loop but
the terminal return reports `attempts = max_retries = 2`, not the claimed
`attempts == 1` (workflows.py line 174 uses `self.settings.max_retries`,
not the loop variable). -/
theorem C3_counterexample :
    (answer_query ⟨fun _ => none, fun _ => ⟨false, ""⟩⟩ 2).1.answer = "" ∧
    (answer_query ⟨fun _ => none, fun _ => ⟨false, ""⟩⟩ 2).1.attempts = 2 ∧
    (answer_query ⟨fun _ => none, fun _ => ⟨false, ""⟩⟩ 2).1.attempts ≠ 1 := by
  decide

/-- C3 (amended): if synthesis produces no answer on attempt 1 (with a
retry budget of at least 2), the loop terminates immediately without
proceeding to attempt 2 — no attempt-2 calls are issued — and the result
carries `answer = ""`, an empty history, and an unsatisfactory evaluation
with the fixed diagnostic reason; but the reported `attempts` equals the
full configured budget, not 1. -/
theorem C3_synthesis_failure_amended (o : WorkflowOracle) (max_retries : Nat)
    (hm : 2 ≤ max_retries) (hs : synthOk (o.synthResult 1) = false) :
    (answer_query o max_retries).1.answer = "" ∧
    (answer_query o max_retries).1.attempts = max_retries ∧
    (answer_query o max_retries).1.evaluation =
      ⟨false, synthesisFailureReason⟩ ∧
    (answer_query o max_retries).1.answers_history = [] ∧
    CallEvent.generate 2 ∉ (answer_query o max_retries).2 ∧
    CallEvent.search 2 ∉ (answer_query o max_retries).2 ∧
    CallEvent.synthesize 2 ∉ (answer_query o max_retries).2 := by
  obtain ⟨f, hf⟩ : ∃ f, max_retries = f + 1 := ⟨max_retries - 1, by omega⟩
  rw [answer_query, hf, answer_query_go_fail o (f + 1) 1 f [] ⟨false, ""⟩ hs]
  refine ⟨rfl, rfl, rfl, rfl, ?_, ?_, ?_⟩ <;> simp

/-- Witness for C3 (amended) at a budget of 2 with synthesis failing on
attempt 1. -/
theorem C3_synthesis_failure_witness :
    (answer_query ⟨fun _ => none, fun _ => ⟨true, "x"⟩⟩ 2).1.answer = "" ∧
    (answer_query ⟨fun _ => none, fun _ => ⟨true, "x"⟩⟩ 2).1.attempts = 2 ∧
    (answer_query ⟨fun _ => none, fun _ => ⟨true, "x"⟩⟩ 2).1.evaluation =
      ⟨false, synthesisFailureReason⟩ ∧
    (answer_query ⟨fun _ => none, fun _ => ⟨true, "x"⟩⟩ 2).1.answers_history
      = [] ∧
    CallEvent.generate 2 ∉ (answer_query ⟨fun _ => none,
      fun _ => ⟨true, "x"⟩⟩ 2).2 ∧
    CallEvent.search 2 ∉ (answer_query ⟨fun _ => none,
      fun _ => ⟨true, "x"⟩⟩ 2).2 ∧
    CallEvent.synthesize 2 ∉ (answer_query ⟨fun _ => none,
      fun _ => ⟨true, "x"⟩⟩ 2).2 :=
  C3_synthesis_failure_amended ⟨fun _ => none, fun _ => ⟨true, "x"⟩⟩ 2
    (Nat.le_refl 2) rfl

end SearchCore
